import Mathlib

/-!
Verification of the geometric line-reconstruction pipeline of the
transkribus post-processing scripts (make_training_data.py and the unnamed
preprocessing variant).  The Python code is shallowly embedded: coordinate
tokens are lists of characters (Python strings), Python exceptions are the
explicit PyResult type, Python floats produced by statistics.mean, the `%`
and `//` operators and the 1.25 multiplier are modelled as exact rationals
(all constants involved, 1.25 in particular, are exactly representable in
binary floating point at the magnitudes this data uses), and Python `int()`
applied to a float is truncation toward zero.
-/

set_option linter.unusedVariables false

/-- Result of a Python computation: either a value or a raised exception
(identified by the exception kind's name).  Sequencing code after a raise
propagates the exception, which pyBind reproduces. -/
inductive PyResult (α : Type) where
  | ok (val : α)
  | error (msg : String)
deriving DecidableEq

/-- Exception propagation: run the continuation only on a successful value. -/
def pyBind {α β : Type} (r : PyResult α) (f : α → PyResult β) : PyResult β :=
  match r with
  | .ok v => f v
  | .error m => .error m

/-- Whether a computation finished without raising. -/
def PyResult.isOk {α : Type} : PyResult α → Bool
  | .ok _ => true
  | .error _ => false

/-- Coordinate tokens are Python strings, embedded as their character lists. -/
abbrev Token := List Char

/-- Python str.split(",") : splits at every comma, keeping empty pieces, and
never returns an empty list. -/
def splitComma : Token → List Token
  | [] => [[]]
  | c :: rest =>
    if c = ',' then [] :: splitComma rest
    else
      match splitComma rest with
      | [] => [[c]]
      | t :: ts => (c :: t) :: ts

/-- Source get_coord (make_training_data.py lines 29-39): point.split(","),
with no validation of the number of fields. -/
def get_coord (point : Token) : List Token := splitComma point

/-- Python list indexing lst[i] for a nonnegative index: IndexError when out
of range. -/
def pyAt {α : Type} (l : List α) (i : ℕ) : PyResult α :=
  match l.get? i with
  | some a => .ok a
  | none => .error "IndexError"

/-- Python list indexing lst[-1]: the last element, IndexError on an empty
list. -/
def pyLast {α : Type} (l : List α) : PyResult α :=
  match l.getLast? with
  | some a => .ok a
  | none => .error "IndexError"

/-- Helper for parseDecimal: accumulate decimal digits, failing on any
non-digit character. -/
def digitsAcc : List Char → Option ℕ → Option ℕ
  | [], acc => acc
  | c :: rest, acc =>
    match acc, c.isDigit with
    | some n, true => digitsAcc rest (some (n * 10 + (c.toNat - 48)))
    | _, _ => none

/-- Digits of a nonempty all-digit token, none otherwise. -/
def parseDecimal (cs : List Char) : Option ℕ :=
  match cs with
  | [] => none
  | _ => digitsAcc cs (some 0)

/-- Python int() on a string token: an optionally minus-signed decimal
numeral (the only shapes this data produces); anything else raises
ValueError. -/
def pyToInt (t : Token) : PyResult ℤ :=
  match t with
  | '-' :: rest =>
    match parseDecimal rest with
    | some n => .ok (-(n : ℤ))
    | none => .error "ValueError"
  | _ =>
    match parseDecimal t with
    | some n => .ok ((n : ℤ))
    | none => .error "ValueError"

/-- Python int(lst[i]): index, then convert. -/
def pyIntAt (l : List Token) (i : ℕ) : PyResult ℤ :=
  pyBind (pyAt l i) fun s => pyToInt s

/-- Python int() applied to a float value: truncation toward zero. -/
def pytrunc (q : ℚ) : ℤ := if 0 ≤ q then ⌊q⌋ else ⌈q⌉

/-- The statistics.mean of a list of integers: the exact rational
sum/length; raises StatisticsError on an empty list. -/
def pymean (ys : List ℤ) : PyResult ℚ :=
  if ys.length = 0 then .error "StatisticsError"
  else .ok ((ys.sum : ℚ) / (ys.length : ℚ))

/-- Source get_baseline_length (lines 42-47) computes
sqrt((x1-x2)^2 + (y1-y2)^2).  Every call site in the program passes the same
y value for both endpoints (base_y_avg twice, or y_avg twice), so the value
is exactly the absolute difference of the x coordinates; the embedding keeps
that specialization to stay in integer arithmetic.  Comparisons such as
baseline_length > 400 are unaffected because sqrt is monotone. -/
def get_baseline_length (x1 x2 : ℤ) : ℤ := |x1 - x2|

/-- The y-value loop shared by get_y_avg and get_line_indicator (lines
54-57 and 66-69): for each token, int(get_coord(token)[1]). -/
def getYs : List Token → PyResult (List ℤ)
  | [] => .ok []
  | t :: ts =>
    pyBind (pyIntAt (get_coord t) 1) fun y =>
    pyBind (getYs ts) fun ys =>
    .ok (y :: ys)

/-- Source get_y_avg (lines 50-59): mean of the y coordinates of all
baseline points. -/
def get_y_avg (coords : List Token) : PyResult ℚ :=
  pyBind (getYs coords) fun ys => pymean ys

/-- Quantization step of get_line_indicator (lines 71-75): with Python
semantics m % b = m - b*floor(m/b) and m // b = floor(m/b), the source reads
if y_mean % b > 30 then (y_mean//b + 1)*b else (y_mean//b)*b.  The bucket
size b is 60 in make_training_data.py and 100 in the unnamed variant; the
comparison constant 30 is the same in both. -/
def quantize (b m : ℚ) : ℚ :=
  if 30 < m - b * (⌊m / b⌋ : ℚ) then ((⌊m / b⌋ : ℚ) + 1) * b
  else (⌊m / b⌋ : ℚ) * b

/-- Spec-side quantization rule, stated for comparison with quantize: the
spec says the value rounds up when the remainder exceeds 30 percent of the
bucket size (rather than the absolute constant 30 of the source). -/
def quantizeSpec (b m : ℚ) : ℚ :=
  if (3 / 10) * b < m - b * (⌊m / b⌋ : ℚ) then ((⌊m / b⌋ : ℚ) + 1) * b
  else (⌊m / b⌋ : ℚ) * b

/-- Source get_line_indicator (lines 62-75): recomputes the baseline mean y
and quantizes it with bucket size 60. -/
def get_line_indicator (coords : List Token) : PyResult ℚ :=
  pyBind (getYs coords) fun ys =>
  pyBind (pymean ys) fun y_mean =>
  .ok (quantize 60 y_mean)

/-- Source get_poly_coord (lines 78-87): parse each "x,y" token into an
integer pair. -/
def get_poly_coord : List Token → PyResult (List (ℤ × ℤ))
  | [] => .ok []
  | t :: ts =>
    pyBind (pyIntAt (get_coord t) 0) fun x =>
    pyBind (pyIntAt (get_coord t) 1) fun y =>
    pyBind (get_poly_coord ts) fun rest =>
    .ok ((x, y) :: rest)

/-- Source get_avg_height (lines 90-101): pair vertex i with vertex
count-1-i, sum the y differences over num_pairs = count // 2 pairs, and
floor-divide by num_pairs.  When the polygon has fewer than two vertices,
num_pairs is zero and the Python division raises ZeroDivisionError.  The
getD defaults are never read: every index accessed is in range whenever
num_pairs > 0. -/
def get_avg_height (poly : List (ℤ × ℤ)) : PyResult ℤ :=
  let num_points := poly.length
  let num_pairs := num_points / 2
  let sum_height := ((List.range num_pairs).map
    (fun i => (poly.getD i (0, 0)).2 - (poly.getD (num_points - 1 - i) (0, 0)).2)).sum
  if num_pairs = 0 then .error "ZeroDivisionError"
  else .ok (Int.fdiv sum_height (num_pairs : ℤ))

/-- One extracted detection record, the per-box dictionary built by
create_box (lines 139-158).  The synthetic "box{i}" keys carry only the
position, so records are kept in lists in insertion order. -/
structure Box where
  bl_start_x : ℤ
  bl_start_y : ℤ
  bl_end_x : ℤ
  bl_end_y : ℤ
  bl_length : ℤ
  avg_height : ℤ
  line_indicator : ℤ
  left_border : ℤ
  right_border : ℤ
deriving DecidableEq

/-- One raw TextLine element as create_box consumes it: the already
space-split token lists of its Coords "points" and Baseline "points"
attributes (XML parsing itself is the external parser of spec section 6). -/
structure RawLine where
  coords_points : List Token
  baseline_points : List Token
deriving DecidableEq

/-- The body of create_box's per-line loop (lines 139-158): parse the
polygon, compute avg_height, take the first and last baseline tokens, the
baseline mean y and the line indicator, and convert the x fields and the
region borders with int().  Any exception aborts the whole create_box call;
there is no per-detection handler in the source. -/
def make_box (left_border right_border : Token) (line : RawLine) : PyResult Box :=
  pyBind (get_poly_coord line.coords_points) fun poly_coords =>
  pyBind (get_avg_height poly_coords) fun avg_height =>
  pyBind (pyAt line.baseline_points 0) fun start_tok =>
  pyBind (pyLast line.baseline_points) fun end_tok =>
  pyBind (get_y_avg line.baseline_points) fun base_y_avg =>
  pyBind (get_line_indicator line.baseline_points) fun line_ind =>
  pyBind (pyIntAt (get_coord start_tok) 0) fun sx =>
  pyBind (pyIntAt (get_coord end_tok) 0) fun ex =>
  pyBind (pyToInt left_border) fun lb =>
  pyBind (pyToInt right_border) fun rb =>
  .ok { bl_start_x := sx
        bl_start_y := pytrunc base_y_avg
        bl_end_x := ex
        bl_end_y := pytrunc base_y_avg
        bl_length := get_baseline_length sx ex
        avg_height := avg_height
        line_indicator := pytrunc line_ind
        left_border := lb
        right_border := rb }

/-- The loop of create_box over the region's TextLine list: the first
exception aborts the whole call, so either every line yields a box or no
boxes at all are produced. -/
def create_boxes (left_border right_border : Token) : List RawLine → PyResult (List Box)
  | [] => .ok []
  | l :: rest =>
    pyBind (make_box left_border right_border l) fun b =>
    pyBind (create_boxes left_border right_border rest) fun bs =>
    .ok (b :: bs)

/-- Source create_box from the point where the main region is selected
(lines 136-159): read the region border tokens region_borders[0] and
region_borders[3], take the first comma field of each, and run the
per-line loop. -/
def create_box (region_borders : List Token) (lines : List RawLine) : PyResult (List Box) :=
  pyBind (pyAt region_borders 0) fun rb0 =>
  pyBind (pyAt (get_coord rb0) 0) fun left_border =>
  pyBind (pyAt region_borders 3) fun rb3 =>
  pyBind (pyAt (get_coord rb3) 0) fun right_border =>
  create_boxes left_border right_border lines

/-- One simplified line record, the value stored under the synthetic
"l{i}" key by line_simplification.  The source stores the points as
space-separated "x,y" strings; the embedding keeps the point lists, one
pair per token, in the exact token order of the format string. -/
structure Line where
  bl_points : List (ℤ × ℤ)
  poly_coord : List (ℤ × ℤ)
deriving DecidableEq

/-- Python min(items, key=f) over a nonempty sequence b :: bs: the first
element attaining the minimum key. -/
def minByFirst (f : Box → ℤ) (b : Box) (bs : List Box) : Box :=
  bs.foldl (fun acc x => if f x < f acc then x else acc) b

/-- Python max(items, key=f) over a nonempty sequence b :: bs: the first
element attaining the maximum key. -/
def maxByFirst (f : Box → ℤ) (b : Box) (bs : List Box) : Box :=
  bs.foldl (fun acc x => if f acc < f x then x else acc) b

/-- Source line_simplification of make_training_data.py (lines 180-206).
The cluster sub_box is a nonempty dict in insertion order, embedded as
b :: bs.  Emits the polygon tokens in the order x4,y4 x3,y3 x2,y2 x1,y1 =
(left, y+25) (right, y+25) (right, y-25) (left, y-25); in image
coordinates y grows downward, so y+25 is the bottom edge and y-25 the top
edge.  int(y_avg - 25) is exact because y_avg is already an int. -/
def line_simplification (b : Box) (bs : List Box) : Option Line :=
  let start := (minByFirst Box.bl_start_x b bs).bl_start_x
  let endx := (maxByFirst Box.bl_end_x b bs).bl_end_x
  let left_edge := (minByFirst Box.bl_start_x b bs).left_border
  let right_edge := (maxByFirst Box.bl_end_x b bs).right_border
  let longest_baseline := maxByFirst Box.bl_length b bs
  let y_avg := longest_baseline.bl_start_y
  let line_ind := longest_baseline.line_indicator
  let baseline_length := get_baseline_length start endx
  if 400 < baseline_length ∧ line_ind ≠ 0 then
    some { bl_points := [(left_edge, y_avg), (right_edge, y_avg)]
           poly_coord := [(left_edge, y_avg + 25), (right_edge, y_avg + 25),
                          (right_edge, y_avg - 25), (left_edge, y_avg - 25)] }
  else none

/-- Source line_simplification of the unnamed variant (part_000 lines
170-195): the polygon spans the cluster's own start/end x instead of the
region borders, its top edge is int(y_avg - height*1.25) and its bottom
edge is y_avg + height // 2 (Python floor division). -/
def line_simplification' (b : Box) (bs : List Box) : Option Line :=
  let start := (minByFirst Box.bl_start_x b bs).bl_start_x
  let endx := (maxByFirst Box.bl_end_x b bs).bl_end_x
  let longest_baseline := maxByFirst Box.bl_length b bs
  let height := longest_baseline.avg_height
  let y_avg := longest_baseline.bl_start_y
  let line_ind := longest_baseline.line_indicator
  let top_y := pytrunc ((y_avg : ℚ) - (height : ℚ) * (5 / 4))
  let bot_y := y_avg + Int.fdiv height 2
  if 400 < get_baseline_length start endx ∧ line_ind ≠ 0 then
    some { bl_points := [(start, y_avg), (endx, y_avg)]
           poly_coord := [(start, bot_y), (endx, bot_y), (endx, top_y), (start, top_y)] }
  else none

/-- Source get_start_y (lines 225-229): of the poly_coord string, take the
last space-separated "x,y" token and the last comma field of that token,
i.e. the y coordinate of the last listed polygon vertex.  Every polygon the
pipeline builds has four vertices, so the default pair is never read. -/
def get_start_y (l : Line) : ℤ := (l.poly_coord.getLast?.getD (0, 0)).2

/-- The removal marks of rm_overlap's scan (lines 232-244): position i of
the input (for i < n-1) is marked exactly when
get_start_y(line i+1) - get_start_y(line i) < 40.  prev_key is reset to the
current key on every iteration whether or not it was marked, so each
decision reads the original adjacent pair. -/
def rm_flags (sim_box : List Line) : List Bool :=
  List.zipWith (fun a b => decide (get_start_y b - get_start_y a < 40))
    sim_box sim_box.tail

/-- Source rm_overlap (lines 232-247): collect the marks during the scan,
then delete the marked entries after the scan is complete.  The dict keys
"l{i}" are distinct, so deletion by key is removal by position; the last
position is never marked. -/
def rm_overlap (sim_box : List Line) : List Line :=
  (sim_box.zip (rm_flags sim_box ++ [false])).filterMap
    (fun p => if p.2 = true then none else some p.1)

/-- Recursive restatement of rm_overlap's scan used to drive induction:
the head of an adjacent pair is dropped exactly when the signed difference
of the reference y values is below 40, and the tail is always examined
intact. -/
def rmScan : List Line → List Line
  | [] => []
  | [a] => [a]
  | a :: b :: rest =>
    if get_start_y b - get_start_y a < 40 then rmScan (b :: rest)
    else a :: rmScan (b :: rest)

/-- Per-index removal rule of the corrected overlap claim, stated for
comparison with rm_overlap: index i of the original input survives unless a
successor exists whose reference y is less than 40 above (signed) the
reference y at i. -/
def rmDecision (l : List Line) (i : ℕ) : Option Line :=
  match l.get? i, l.get? (i + 1) with
  | some cur, some nxt =>
      if get_start_y nxt - get_start_y cur < 40 then none else some cur
  | some cur, none => some cur
  | none, _ => none

/-- Concrete Line whose reference vertex (the last listed polygon vertex)
has the given y value; used as test input for the overlap claims. -/
def refLine (y : ℤ) : Line :=
  { bl_points := [(0, y - 50), (1000, y - 50)]
    poly_coord := [(0, y + 50), (1000, y + 50), (1000, y), (0, y)] }

lemma rmScan_cons_cons (a b : Line) (rest : List Line) :
    rmScan (a :: b :: rest) =
      if get_start_y b - get_start_y a < 40 then rmScan (b :: rest)
      else a :: rmScan (b :: rest) := rfl

lemma rm_overlap_cons_cons (a b : Line) (rest : List Line) :
    rm_overlap (a :: b :: rest) =
      if get_start_y b - get_start_y a < 40 then rm_overlap (b :: rest)
      else a :: rm_overlap (b :: rest) := by
  by_cases h : get_start_y b - get_start_y a < 40 <;>
    simp [rm_overlap, rm_flags, h]

lemma rm_overlap_eq_rmScan : ∀ l : List Line, rm_overlap l = rmScan l := by
  intro l
  induction l using rmScan.induct with
  | case1 => rfl
  | case2 a => rfl
  | case3 a b rest h ih =>
      rw [rm_overlap_cons_cons, if_pos h, ih, rmScan_cons_cons, if_pos h]
  | case4 a b rest h ih =>
      rw [rm_overlap_cons_cons, if_neg h, ih, rmScan_cons_cons, if_neg h]

lemma rmScan_sublist : ∀ l : List Line, List.Sublist (rmScan l) l := by
  intro l
  induction l using rmScan.induct with
  | case1 => exact List.Sublist.refl _
  | case2 a => exact List.Sublist.refl _
  | case3 a b rest h ih =>
      rw [rmScan_cons_cons, if_pos h]
      exact ih.cons a
  | case4 a b rest h ih =>
      rw [rmScan_cons_cons, if_neg h]
      exact ih.cons₂ a

lemma rmScan_ne_nil : ∀ l : List Line, l ≠ [] → rmScan l ≠ [] := by
  intro l
  induction l using rmScan.induct with
  | case1 => intro h; exact absurd rfl h
  | case2 a => intro _; simp [rmScan]
  | case3 a b rest h ih =>
      intro _
      rw [rmScan_cons_cons, if_pos h]
      exact ih (by simp)
  | case4 a b rest h ih =>
      intro _
      rw [rmScan_cons_cons, if_neg h]
      simp

lemma rmScan_getLast : ∀ l : List Line, (rmScan l).getLast? = l.getLast? := by
  intro l
  induction l using rmScan.induct with
  | case1 => rfl
  | case2 a => rfl
  | case3 a b rest h ih =>
      rw [rmScan_cons_cons, if_pos h, ih, List.getLast?_cons_cons]
  | case4 a b rest h ih =>
      rw [rmScan_cons_cons, if_neg h]
      cases hxs : rmScan (b :: rest) with
      | nil => exact absurd hxs (rmScan_ne_nil _ (by simp))
      | cons c cs =>
          rw [List.getLast?_cons_cons, ← hxs, ih, List.getLast?_cons_cons]

lemma rmScan_pairwise :
    ∀ l : List Line, l.Pairwise (fun a b => get_start_y a ≤ get_start_y b) →
      (rmScan l).Pairwise (fun a b => 40 ≤ get_start_y b - get_start_y a) := by
  intro l
  induction l using rmScan.induct with
  | case1 => intro _; simp [rmScan]
  | case2 a => intro _; simp [rmScan]
  | case3 a b rest h ih =>
      intro hmono
      rw [rmScan_cons_cons, if_pos h]
      exact ih hmono.of_cons
  | case4 a b rest h ih =>
      intro hmono
      rw [rmScan_cons_cons, if_neg h]
      refine List.Pairwise.cons ?_ (ih hmono.of_cons)
      intro x hx
      have hxmem : x ∈ b :: rest := (rmScan_sublist (b :: rest)).subset hx
      have hab : get_start_y a ≤ get_start_y b :=
        (List.pairwise_cons.mp hmono).1 b (by simp)
      rcases List.mem_cons.mp hxmem with rfl | hxr
      · omega
      · have hbx : get_start_y b ≤ get_start_y x :=
          (List.pairwise_cons.mp hmono.of_cons).1 x hxr
        omega

lemma rmDecision_succ (a : Line) (l : List Line) (i : ℕ) :
    rmDecision (a :: l) (i + 1) = rmDecision l i := by
  simp [rmDecision]

lemma rmScan_eq_filterMap :
    ∀ l : List Line, rmScan l = (List.range l.length).filterMap (rmDecision l) := by
  intro l
  induction l with
  | nil => rfl
  | cons a l ih =>
      rw [List.length_cons, List.range_succ_eq_map, List.filterMap_cons,
        List.filterMap_map]
      have hshift : rmDecision (a :: l) ∘ Nat.succ = rmDecision l := by
        funext i
        exact rmDecision_succ a l i
      rw [hshift, ← ih]
      cases l with
      | nil => rfl
      | cons b rest =>
          have h0 : rmDecision (a :: b :: rest) 0 =
              if get_start_y b - get_start_y a < 40 then none else some a := rfl
          rw [rmScan_cons_cons, h0]
          by_cases h : get_start_y b - get_start_y a < 40 <;> simp [h]

/-- Claim C3 (corrected): rm_overlap equals position-wise filtering of the
original input by rmDecision, so line i is removed exactly when the SIGNED
difference get_start_y(line i+1) - get_start_y(line i) is below 40 (the
source compares cur_y - prev_y, not the absolute difference of the spec),
every decision reads the original adjacent pair (never an already-removed
line), and the removals take effect only after the full scan. -/
theorem rm_overlap_marks_signed (sim_box : List Line) :
    rm_overlap sim_box = (List.range sim_box.length).filterMap (rmDecision sim_box) :=
  (rm_overlap_eq_rmScan sim_box).trans (rmScan_eq_filterMap sim_box)

/-- Claim C3 witness: the characterization evaluated on a concrete pair of
lines. -/
theorem rm_overlap_marks_signed_witness :
    rm_overlap [refLine 0, refLine 100] =
      (List.range ([refLine 0, refLine 100] : List Line).length).filterMap
        (rmDecision [refLine 0, refLine 100]) :=
  rm_overlap_marks_signed [refLine 0, refLine 100]

/-- Claim C3 counterexample: two lines whose reference y values are 500
then 400.  The absolute difference is 100, at least 40, so the claim as
stated predicts no removal; the source compares the signed difference
400 - 500 = -100 < 40 and removes the earlier line. -/
theorem rm_overlap_abs_cex :
    rm_overlap [refLine 500, refLine 400] = [refLine 400] ∧
    40 ≤ |get_start_y (refLine 400) - get_start_y (refLine 500)| := by decide

/-- Claim C6 (corrected): the Overlap Resolver never grows the list, and
when the input reference y values are nondecreasing (the order the pipeline
produces), every ordered pair of surviving lines is separated by at least
40.  For arbitrary inputs the separation guarantee fails, see the
counterexample. -/
theorem rm_overlap_reduction (l : List Line) :
    (rm_overlap l).length ≤ l.length ∧
    (l.Pairwise (fun a b => get_start_y a ≤ get_start_y b) →
      (rm_overlap l).Pairwise (fun a b => 40 ≤ get_start_y b - get_start_y a)) := by
  constructor
  · rw [rm_overlap_eq_rmScan]
    exact (rmScan_sublist l).length_le
  · intro hmono
    rw [rm_overlap_eq_rmScan]
    exact rmScan_pairwise l hmono

/-- Claim C6 witness: the reduction and separation conclusions on a
concrete sorted input. -/
theorem rm_overlap_reduction_witness :
    (rm_overlap [refLine 0, refLine 100]).length ≤
      ([refLine 0, refLine 100] : List Line).length ∧
    (rm_overlap [refLine 0, refLine 100]).Pairwise
      (fun a b => 40 ≤ get_start_y b - get_start_y a) :=
  ⟨(rm_overlap_reduction [refLine 0, refLine 100]).1,
   (rm_overlap_reduction [refLine 0, refLine 100]).2 (by decide)⟩

/-- Claim C6 counterexample: reference y values 0, 40, 10.  The pair (0,40)
is kept apart, the pair (40,10) has signed difference -30 < 40 so the middle
line is removed, and the two survivors are only 10 apart, violating the
claimed universal separation. -/
theorem rm_overlap_separation_cex :
    rm_overlap [refLine 0, refLine 40, refLine 10] = [refLine 0, refLine 10] ∧
    |get_start_y (refLine 10) - get_start_y (refLine 0)| < 40 := by decide

/-- Claim C9 (implicit, confirmed): rm_overlap preserves the last line of
its input (only the earlier member of a close pair is ever marked), hence a
non-empty input yields a non-empty output. -/
theorem rm_overlap_keeps_last (l : List Line) :
    (rm_overlap l).getLast? = l.getLast? ∧ (l ≠ [] → rm_overlap l ≠ []) := by
  constructor
  · rw [rm_overlap_eq_rmScan]
    exact rmScan_getLast l
  · intro h
    rw [rm_overlap_eq_rmScan]
    exact rmScan_ne_nil l h

/-- Claim C9 witness: last-line preservation and non-emptiness on a
concrete input. -/
theorem rm_overlap_keeps_last_witness :
    (rm_overlap [refLine 0, refLine 10]).getLast? =
      ([refLine 0, refLine 10] : List Line).getLast? ∧
    rm_overlap [refLine 0, refLine 10] ≠ [] :=
  ⟨(rm_overlap_keeps_last [refLine 0, refLine 10]).1,
   (rm_overlap_keeps_last [refLine 0, refLine 10]).2 (by decide)⟩

/-- Claim C2 counterexample: with bucket size 60 and mean y 20 the
remainder 20 exceeds 30 percent of the bucket (18), so the claimed rule
rounds up to 60, while the source's absolute threshold 30 rounds down
to 0. -/
theorem quantize_pct_cex : quantize 60 20 = 0 ∧ quantizeSpec 60 20 = 60 := by
  constructor <;> norm_num [quantize, quantizeSpec]

/-- Claim C2 (corrected): for both supported bucket sizes the rounding
threshold on the remainder m mod b is the absolute constant 30, not 30
percent of the bucket size; the bucket value rounds down exactly when the
remainder is at most 30 and up exactly when it exceeds 30.  Only for bucket
size 100 does this coincide with the spec's 30 percent rule. -/
theorem quantize_threshold_abs30 (b m : ℚ) (hb : b = 60 ∨ b = 100) :
    (quantize b m = b * (⌊m / b⌋ : ℚ) ↔ m - b * (⌊m / b⌋ : ℚ) ≤ 30) ∧
    (quantize b m = b * ((⌊m / b⌋ : ℚ) + 1) ↔ 30 < m - b * (⌊m / b⌋ : ℚ)) ∧
    (b = 100 → quantize b m = quantizeSpec b m) := by
  have hbpos : (0 : ℚ) < b := by rcases hb with rfl | rfl <;> norm_num
  refine ⟨?_, ?_, ?_⟩
  · unfold quantize
    split
    next h =>
      constructor
      · intro heq
        exfalso
        ring_nf at heq
        nlinarith
      · intro hle
        exact absurd h (not_lt.mpr hle)
    next h =>
      constructor
      · intro _
        exact le_of_not_lt h
      · intro _
        ring
  · unfold quantize
    split
    next h =>
      constructor
      · intro _
        exact h
      · intro _
        ring
    next h =>
      constructor
      · intro heq
        exfalso
        ring_nf at heq
        nlinarith
      · intro hlt
        exact absurd hlt h
  · intro hb100
    subst hb100
    unfold quantize quantizeSpec
    norm_num

/-- Claim C2 witness: the corrected characterization evaluated at bucket
size 100 and mean y 45. -/
theorem quantize_threshold_abs30_witness :
    ((quantize 100 45 = 100 * (⌊(45 : ℚ) / 100⌋ : ℚ) ↔
        (45 : ℚ) - 100 * (⌊(45 : ℚ) / 100⌋ : ℚ) ≤ 30) ∧
      (quantize 100 45 = 100 * ((⌊(45 : ℚ) / 100⌋ : ℚ) + 1) ↔
        30 < (45 : ℚ) - 100 * (⌊(45 : ℚ) / 100⌋ : ℚ)) ∧
      ((100 : ℚ) = 100 → quantize 100 45 = quantizeSpec 100 45)) :=
  quantize_threshold_abs30 100 45 (Or.inr rfl)

/-- Claim C7 (confirmed): for any positive bucket size, mean y values at
least one full bucket apart are assigned buckets in the same order. -/
theorem quantize_monotone (b y1 y2 : ℚ) (hb : 0 < b) (h12 : y1 < y2)
    (hgap : b ≤ y2 - y1) : quantize b y1 ≤ quantize b y2 := by
  have hfloor : ⌊y1 / b⌋ + 1 ≤ ⌊y2 / b⌋ := by
    have heq : y1 / b + 1 = (y1 + b) / b := by
      field_simp
    have hdiv : y1 / b + 1 ≤ y2 / b := by
      rw [heq]
      exact (div_le_div_iff_of_pos_right hb).mpr (by linarith)
    calc ⌊y1 / b⌋ + 1 = ⌊y1 / b + 1⌋ := by rw [Int.floor_add_one]
      _ ≤ ⌊y2 / b⌋ := Int.floor_le_floor hdiv
  have h1 : quantize b y1 ≤ ((⌊y1 / b⌋ : ℚ) + 1) * b := by
    unfold quantize
    split
    · exact le_rfl
    · exact mul_le_mul_of_nonneg_right (by linarith) hb.le
  have h2 : ((⌊y2 / b⌋ : ℚ)) * b ≤ quantize b y2 := by
    unfold quantize
    split
    · exact mul_le_mul_of_nonneg_right (by linarith) hb.le
    · exact le_rfl
  have h3 : ((⌊y1 / b⌋ : ℚ) + 1) * b ≤ ((⌊y2 / b⌋ : ℚ)) * b := by
    have hcast : ((⌊y1 / b⌋ : ℚ) + 1) ≤ (⌊y2 / b⌋ : ℚ) := by
      exact_mod_cast hfloor
    exact mul_le_mul_of_nonneg_right hcast hb.le
  linarith

/-- Claim C7 witness: monotonicity evaluated at bucket size 60 for mean
values 0 and 60. -/
theorem quantize_monotone_witness : quantize 60 0 ≤ quantize 60 60 :=
  quantize_monotone 60 0 60 (by norm_num) (by norm_num) (by norm_num)

/-- Claim C1 (confirmed): for every non-empty cluster, both source variants
of the Line Simplifier emit a Line exactly when the baseline length taken
from the cluster's minimum bl_start_x and maximum bl_end_x exceeds 400 and
the longest-baseline member's line indicator is non-zero; otherwise the
value is none and no exception is raised (the function is total on
non-empty clusters). -/
theorem line_simplification_gate (b : Box) (bs : List Box) :
    ((line_simplification b bs).isSome = true ↔
      (400 < get_baseline_length (minByFirst Box.bl_start_x b bs).bl_start_x
          (maxByFirst Box.bl_end_x b bs).bl_end_x ∧
        (maxByFirst Box.bl_length b bs).line_indicator ≠ 0)) ∧
    ((line_simplification' b bs).isSome = true ↔
      (400 < get_baseline_length (minByFirst Box.bl_start_x b bs).bl_start_x
          (maxByFirst Box.bl_end_x b bs).bl_end_x ∧
        (maxByFirst Box.bl_length b bs).line_indicator ≠ 0)) := by
  constructor
  · simp only [line_simplification]
    split
    next h => simpa using h
    next h => simpa using h
  · simp only [line_simplification']
    split
    next h => simpa using h
    next h => simpa using h

/-- Concrete detection record used to exercise the Line Simplifier: its
baseline spans x 0 to 500 at mean y 1000, with height 40 and bucket 960. -/
def boxA : Box :=
  { bl_start_x := 0, bl_start_y := 1000, bl_end_x := 500, bl_end_y := 1000,
    bl_length := 500, avg_height := 40, line_indicator := 960,
    left_border := 0, right_border := 1000 }

/-- Line produced by line_simplification (the make_training_data.py
variant) on the singleton cluster boxA. -/
def lineA : Line :=
  { bl_points := [(0, 1000), (1000, 1000)]
    poly_coord := [(0, 1025), (1000, 1025), (1000, 975), (0, 975)] }

/-- Line produced by line_simplification' (the part_000 variant) on the
singleton cluster boxA. -/
def lineA' : Line :=
  { bl_points := [(0, 1000), (500, 1000)]
    poly_coord := [(0, 1020), (500, 1020), (500, 950), (0, 950)] }

lemma lineA_eval : line_simplification boxA [] = some lineA := by decide

lemma lineA'_eval : line_simplification' boxA [] = some lineA' := by
  have hfd : Int.fdiv (40 : ℤ) 2 = 20 := by decide
  have htop : pytrunc (950 : ℚ) = 950 := by
    norm_num [pytrunc]
  norm_num [line_simplification', boxA, minByFirst, maxByFirst,
    get_baseline_length, lineA', hfd, htop]

/-- Claim C1 witness: the gate equivalence evaluated on the singleton
cluster boxA. -/
theorem line_simplification_gate_witness :
    ((line_simplification boxA []).isSome = true ↔
      (400 < get_baseline_length (minByFirst Box.bl_start_x boxA []).bl_start_x
          (maxByFirst Box.bl_end_x boxA []).bl_end_x ∧
        (maxByFirst Box.bl_length boxA []).line_indicator ≠ 0)) ∧
    ((line_simplification' boxA []).isSome = true ↔
      (400 < get_baseline_length (minByFirst Box.bl_start_x boxA []).bl_start_x
          (maxByFirst Box.bl_end_x boxA []).bl_end_x ∧
        (maxByFirst Box.bl_length boxA []).line_indicator ≠ 0)) :=
  line_simplification_gate boxA []

/-- Claim C5 (corrected): the fixed-constant variant is indeed symmetric,
with 25 units above and below the representative y; the height-scaled
variant of part_000 is NOT symmetric: it places int(height * 1.25) above
the representative y but only height // 2 below it. -/
theorem polygon_band (b : Box) (bs : List Box) (l l' : Line)
    (h : line_simplification b bs = some l)
    (h' : line_simplification' b bs = some l') :
    l.poly_coord.map Prod.snd =
      [(maxByFirst Box.bl_length b bs).bl_start_y + 25,
       (maxByFirst Box.bl_length b bs).bl_start_y + 25,
       (maxByFirst Box.bl_length b bs).bl_start_y - 25,
       (maxByFirst Box.bl_length b bs).bl_start_y - 25] ∧
    l'.poly_coord.map Prod.snd =
      [(maxByFirst Box.bl_length b bs).bl_start_y +
         Int.fdiv (maxByFirst Box.bl_length b bs).avg_height 2,
       (maxByFirst Box.bl_length b bs).bl_start_y +
         Int.fdiv (maxByFirst Box.bl_length b bs).avg_height 2,
       pytrunc (((maxByFirst Box.bl_length b bs).bl_start_y : ℚ) -
         ((maxByFirst Box.bl_length b bs).avg_height : ℚ) * (5 / 4)),
       pytrunc (((maxByFirst Box.bl_length b bs).bl_start_y : ℚ) -
         ((maxByFirst Box.bl_length b bs).avg_height : ℚ) * (5 / 4))] := by
  constructor
  · simp only [line_simplification] at h
    split at h
    · injection h with h2
      subst h2
      rfl
    · simp at h
  · simp only [line_simplification'] at h'
    split at h'
    · injection h' with h2
      subst h2
      rfl
    · simp at h'

/-- Claim C5 witness: the band values evaluated on the singleton cluster
boxA for both variants. -/
theorem polygon_band_witness :
    lineA.poly_coord.map Prod.snd =
      [(maxByFirst Box.bl_length boxA []).bl_start_y + 25,
       (maxByFirst Box.bl_length boxA []).bl_start_y + 25,
       (maxByFirst Box.bl_length boxA []).bl_start_y - 25,
       (maxByFirst Box.bl_length boxA []).bl_start_y - 25] ∧
    lineA'.poly_coord.map Prod.snd =
      [(maxByFirst Box.bl_length boxA []).bl_start_y +
         Int.fdiv (maxByFirst Box.bl_length boxA []).avg_height 2,
       (maxByFirst Box.bl_length boxA []).bl_start_y +
         Int.fdiv (maxByFirst Box.bl_length boxA []).avg_height 2,
       pytrunc (((maxByFirst Box.bl_length boxA []).bl_start_y : ℚ) -
         ((maxByFirst Box.bl_length boxA []).avg_height : ℚ) * (5 / 4)),
       pytrunc (((maxByFirst Box.bl_length boxA []).bl_start_y : ℚ) -
         ((maxByFirst Box.bl_length boxA []).avg_height : ℚ) * (5 / 4))] :=
  polygon_band boxA [] lineA lineA' lineA_eval lineA'_eval

/-- Claim C5 counterexample: on boxA (representative y 1000, height 40) the
part_000 variant produces a polygon whose bottom edge is 20 below the
representative y (1020) but whose top edge is 50 above it (950): the two
halfbands differ, refuting the claimed vertical symmetry. -/
theorem polygon_band_asym_cex :
    line_simplification' boxA [] = some lineA' ∧
    (1020 : ℤ) - 1000 ≠ 1000 - 950 :=
  ⟨lineA'_eval, by decide⟩

/-- Claim C8 (confirmed): every Line the make_training_data.py simplifier
emits carries exactly two baseline points, left edge then right edge at the
representative y, and exactly four polygon vertices in the token order
bottom-left, bottom-right, top-right, top-left (y grows downward, so y+25
is the bottom edge). -/
theorem line_points_order (b : Box) (bs : List Box) (l : Line)
    (h : line_simplification b bs = some l) :
    l.bl_points =
      [((minByFirst Box.bl_start_x b bs).left_border,
        (maxByFirst Box.bl_length b bs).bl_start_y),
       ((maxByFirst Box.bl_end_x b bs).right_border,
        (maxByFirst Box.bl_length b bs).bl_start_y)] ∧
    l.poly_coord =
      [((minByFirst Box.bl_start_x b bs).left_border,
        (maxByFirst Box.bl_length b bs).bl_start_y + 25),
       ((maxByFirst Box.bl_end_x b bs).right_border,
        (maxByFirst Box.bl_length b bs).bl_start_y + 25),
       ((maxByFirst Box.bl_end_x b bs).right_border,
        (maxByFirst Box.bl_length b bs).bl_start_y - 25),
       ((minByFirst Box.bl_start_x b bs).left_border,
        (maxByFirst Box.bl_length b bs).bl_start_y - 25)] := by
  simp only [line_simplification] at h
  split at h
  · injection h with h2
    subst h2
    exact ⟨rfl, rfl⟩
  · simp at h

/-- Claim C8 witness: the token layout evaluated on the singleton cluster
boxA. -/
theorem line_points_order_witness :
    lineA.bl_points =
      [((minByFirst Box.bl_start_x boxA []).left_border,
        (maxByFirst Box.bl_length boxA []).bl_start_y),
       ((maxByFirst Box.bl_end_x boxA []).right_border,
        (maxByFirst Box.bl_length boxA []).bl_start_y)] ∧
    lineA.poly_coord =
      [((minByFirst Box.bl_start_x boxA []).left_border,
        (maxByFirst Box.bl_length boxA []).bl_start_y + 25),
       ((maxByFirst Box.bl_end_x boxA []).right_border,
        (maxByFirst Box.bl_length boxA []).bl_start_y + 25),
       ((maxByFirst Box.bl_end_x boxA []).right_border,
        (maxByFirst Box.bl_length boxA []).bl_start_y - 25),
       ((minByFirst Box.bl_start_x boxA []).left_border,
        (maxByFirst Box.bl_length boxA []).bl_start_y - 25)] :=
  line_points_order boxA [] lineA lineA_eval

/-- Claim C10 (implicit, confirmed): get_avg_height succeeds exactly when
the polygon has at least two vertices; with fewer, the pair count is zero
and the source's floor division raises ZeroDivisionError instead of
returning a value. -/
theorem get_avg_height_ok_iff (poly : List (ℤ × ℤ)) :
    (get_avg_height poly).isOk = true ↔ 2 ≤ poly.length := by
  simp only [get_avg_height]
  split
  next h =>
    simp only [PyResult.isOk, Bool.false_eq_true, false_iff]
    omega
  next h =>
    simp only [PyResult.isOk, true_iff]
    omega

/-- Claim C10 witness: the equivalence evaluated on a two-vertex polygon. -/
theorem get_avg_height_ok_iff_witness :
    (get_avg_height [((0 : ℤ), (0 : ℤ)), (0, 40)]).isOk = true ↔
      2 ≤ ([((0 : ℤ), (0 : ℤ)), (0, 40)] : List (ℤ × ℤ)).length :=
  get_avg_height_ok_iff [((0 : ℤ), (0 : ℤ)), (0, 40)]

/-- Well-formed raw detection: four polygon vertices and a two-point
baseline at mean y 500. -/
def goodLine : RawLine :=
  { coords_points := ["10,450".toList, "900,450".toList,
                      "900,550".toList, "10,550".toList]
    baseline_points := ["10,500".toList, "900,500".toList] }

/-- Raw detection whose first baseline token "10,500,9" has an extra comma
field: the wrong number of fields, yet the source parses it using the first
two fields and never raises. -/
def extraFieldLine : RawLine :=
  { coords_points := ["10,450".toList, "900,450".toList,
                      "900,550".toList, "10,550".toList]
    baseline_points := ["10,500,9".toList, "900,500".toList] }

/-- Raw detection whose first baseline token "7" has too few comma fields. -/
def badLine : RawLine :=
  { coords_points := ["10,450".toList, "900,450".toList,
                      "900,550".toList, "10,550".toList]
    baseline_points := ["7".toList, "900,500".toList] }

/-- Region border tokens of the enclosing text region: tokens 0 and 3 give
left x 0 and right x 4000. -/
def regionBorders : List Token :=
  ["0,0".toList, "0,3000".toList, "4000,3000".toList, "4000,0".toList]

/-- Box record extracted from goodLine (and from extraFieldLine, whose
extra field is ignored): baseline 10 to 900 at truncated mean y 500,
length 890, bucket 480, avg_height -100 (the polygon lists its top edge
first, so the paired differences are negative). -/
def boxGood : Box :=
  { bl_start_x := 10, bl_start_y := 500, bl_end_x := 900, bl_end_y := 500,
    bl_length := 890, avg_height := -100, line_indicator := 480,
    left_border := 0, right_border := 4000 }

lemma make_box_good_eval :
    make_box "0".toList "4000".toList goodLine = .ok boxGood := by
  have h1 : get_poly_coord goodLine.coords_points =
      .ok [(10, 450), (900, 450), (900, 550), (10, 550)] := by decide
  have h2 : get_avg_height [((10 : ℤ), (450 : ℤ)), (900, 450), (900, 550), (10, 550)] =
      .ok (-100) := by decide
  have h3 : pyAt goodLine.baseline_points 0 = .ok "10,500".toList := by decide
  have h4 : pyLast goodLine.baseline_points = .ok "900,500".toList := by decide
  have h5 : getYs goodLine.baseline_points = .ok [500, 500] := by decide
  have hm : pymean [(500 : ℤ), 500] = .ok 500 := by
    norm_num [pymean]
  have h6 : get_y_avg goodLine.baseline_points = .ok 500 := by
    simp [get_y_avg, h5, pyBind, hm]
  have h7 : get_line_indicator goodLine.baseline_points = .ok 480 := by
    simp only [get_line_indicator, h5, pyBind, hm]
    norm_num [quantize]
  have h8 : pyIntAt (get_coord "10,500".toList) 0 = .ok 10 := by decide
  have h9 : pyIntAt (get_coord "900,500".toList) 0 = .ok 900 := by decide
  have h10 : pyToInt "0".toList = .ok 0 := by decide
  have h11 : pyToInt "4000".toList = .ok 4000 := by decide
  have ht500 : pytrunc (500 : ℚ) = 500 := by norm_num [pytrunc]
  have ht480 : pytrunc (480 : ℚ) = 480 := by norm_num [pytrunc]
  simp only [make_box, h1, pyBind, h2, h3, h4, h6, h7, h8, h9, h10, h11]
  norm_num [boxGood, get_baseline_length, ht500, ht480]

lemma make_box_extra_eval :
    make_box "0".toList "4000".toList extraFieldLine = .ok boxGood := by
  have h1 : get_poly_coord extraFieldLine.coords_points =
      .ok [(10, 450), (900, 450), (900, 550), (10, 550)] := by decide
  have h2 : get_avg_height [((10 : ℤ), (450 : ℤ)), (900, 450), (900, 550), (10, 550)] =
      .ok (-100) := by decide
  have h3 : pyAt extraFieldLine.baseline_points 0 = .ok "10,500,9".toList := by decide
  have h4 : pyLast extraFieldLine.baseline_points = .ok "900,500".toList := by decide
  have h5 : getYs extraFieldLine.baseline_points = .ok [500, 500] := by decide
  have hm : pymean [(500 : ℤ), 500] = .ok 500 := by
    norm_num [pymean]
  have h6 : get_y_avg extraFieldLine.baseline_points = .ok 500 := by
    simp [get_y_avg, h5, pyBind, hm]
  have h7 : get_line_indicator extraFieldLine.baseline_points = .ok 480 := by
    simp only [get_line_indicator, h5, pyBind, hm]
    norm_num [quantize]
  have h8 : pyIntAt (get_coord "10,500,9".toList) 0 = .ok 10 := by decide
  have h9 : pyIntAt (get_coord "900,500".toList) 0 = .ok 900 := by decide
  have h10 : pyToInt "0".toList = .ok 0 := by decide
  have h11 : pyToInt "4000".toList = .ok 4000 := by decide
  have ht500 : pytrunc (500 : ℚ) = 500 := by norm_num [pytrunc]
  have ht480 : pytrunc (480 : ℚ) = 480 := by norm_num [pytrunc]
  simp only [make_box, h1, pyBind, h2, h3, h4, h6, h7, h8, h9, h10, h11]
  norm_num [boxGood, get_baseline_length, ht500, ht480]

/-- Claim C4 (corrected): the per-line loop of create_box succeeds exactly
when every detection of the document parses; the first uncaught exception
aborts the whole call, so nothing is extracted for a document containing a
malformed detection. -/
theorem create_boxes_ok_iff (left_border right_border : Token)
    (lines : List RawLine) :
    (create_boxes left_border right_border lines).isOk = true ↔
      ∀ l ∈ lines, (make_box left_border right_border l).isOk = true := by
  induction lines with
  | nil => simp [create_boxes, PyResult.isOk]
  | cons d rest ih =>
      constructor
      · intro h
        rw [List.forall_mem_cons]
        cases hd : make_box left_border right_border d with
        | error m =>
            simp only [create_boxes, hd, pyBind] at h
            simp [PyResult.isOk] at h
        | ok bx =>
            cases hr : create_boxes left_border right_border rest with
            | error m =>
                simp only [create_boxes, hd, hr, pyBind] at h
                simp [PyResult.isOk] at h
            | ok bs =>
                exact ⟨by simp [hd, PyResult.isOk],
                       ih.mp (by simp [hr, PyResult.isOk])⟩
      · intro h
        obtain ⟨h1, h2⟩ := List.forall_mem_cons.mp h
        have h3 := ih.mpr h2
        cases hd : make_box left_border right_border d with
        | error m =>
            rw [hd] at h1
            simp [PyResult.isOk] at h1
        | ok bx =>
            cases hr : create_boxes left_border right_border rest with
            | error m =>
                rw [hr] at h3
                simp [PyResult.isOk] at h3
            | ok bs =>
                simp [create_boxes, hd, hr, pyBind, PyResult.isOk]

/-- Claim C4 witness: the equivalence evaluated on a one-detection
document. -/
theorem create_boxes_ok_iff_witness :
    (create_boxes "0".toList "4000".toList [goodLine]).isOk = true ↔
      ∀ l ∈ [goodLine], (make_box "0".toList "4000".toList l).isOk = true :=
  create_boxes_ok_iff "0".toList "4000".toList [goodLine]

/-- Claim C4 counterexample: a wrong field count does not produce a
MalformedCoordinate-style per-detection skip.  A token with an extra field
is accepted outright, and a token with a missing field aborts create_box
for the whole document with an uncaught IndexError: the well-formed second
detection is NOT extracted, even though on its own it parses fine. -/
theorem create_box_malformed_cex :
    (make_box "0".toList "4000".toList goodLine).isOk = true ∧
    (make_box "0".toList "4000".toList extraFieldLine).isOk = true ∧
    create_box regionBorders [badLine, goodLine] = .error "IndexError" := by
  refine ⟨?_, ?_, ?_⟩
  · rw [make_box_good_eval]
    rfl
  · rw [make_box_extra_eval]
    rfl
  · decide
